import Mathlib

set_option maxRecDepth 100000

/-!
Verification of the PDF signature scripts (`sign.py`, `verify_pdf.py`)
against their natural-language specification.

Bytes are modelled as `List Nat` (each element a byte value), machine
32-bit words as `Nat` reduced modulo `2 ^ 32` where overflow matters.
`hashlib.sha256(...).hexdigest()` is embedded as a full FIPS 180-4
SHA-256 over byte lists producing a lowercase hex string.
-/

namespace PdfSig

/-- 2 ^ 32, the modulus for 32-bit words. -/
def w32 : Nat := 4294967296

/-- Truncate to a 32-bit word. -/
def u32 (x : Nat) : Nat := x % w32

/-- 32-bit modular addition. -/
def add32 (a b : Nat) : Nat := (a + b) % w32

/-- Right rotation of a 32-bit word by `n` bits. -/
def rotr (n x : Nat) : Nat := ((x >>> n) ||| (x <<< (32 - n))) % w32

/-- Bitwise complement of a 32-bit word. -/
def not32 (x : Nat) : Nat := x ^^^ 4294967295

/-- SHA-256 `Ch` function. -/
def ch (x y z : Nat) : Nat := (x &&& y) ^^^ (not32 x &&& z)

/-- SHA-256 `Maj` function. -/
def maj (x y z : Nat) : Nat := (x &&& y) ^^^ (x &&& z) ^^^ (y &&& z)

/-- SHA-256 big Sigma-0. -/
def bigS0 (x : Nat) : Nat := rotr 2 x ^^^ rotr 13 x ^^^ rotr 22 x

/-- SHA-256 big Sigma-1. -/
def bigS1 (x : Nat) : Nat := rotr 6 x ^^^ rotr 11 x ^^^ rotr 25 x

/-- SHA-256 small sigma-0. -/
def smallS0 (x : Nat) : Nat := rotr 7 x ^^^ rotr 18 x ^^^ (x >>> 3)

/-- SHA-256 small sigma-1. -/
def smallS1 (x : Nat) : Nat := rotr 17 x ^^^ rotr 19 x ^^^ (x >>> 10)

/-- The 64 SHA-256 round constants, written in decimal. -/
def K : List Nat :=
  [1116352408, 1899447441, 3049323471, 3921009573, 961987163,
   1508970993, 2453635748, 2870763221, 3624381080, 310598401,
   607225278, 1426881987, 1925078388, 2162078206, 2614888103,
   3248222580, 3835390401, 4022224774, 264347078, 604807628,
   770255983, 1249150122, 1555081692, 1996064986, 2554220882,
   2821834349, 2952996808, 3210313671, 3336571891, 3584528711,
   113926993, 338241895, 666307205, 773529912, 1294757372,
   1396182291, 1695183700, 1986661051, 2177026350, 2456956037,
   2730485921, 2820302411, 3259730800, 3345764771, 3516065817,
   3600352804, 4094571909, 275423344, 430227734, 506948616,
   659060556, 883997877, 958139571, 1322822218, 1537002063,
   1747873779, 1955562222, 2024104815, 2227730452, 2361852424,
   2428436474, 2756734187, 3204031479, 3329325298]

/-- The SHA-256 working state: eight 32-bit words. -/
structure Sha256State where
  a : Nat
  b : Nat
  c : Nat
  d : Nat
  e : Nat
  f : Nat
  g : Nat
  h : Nat
  deriving Repr, DecidableEq

/-- The SHA-256 initial hash value, written in decimal. -/
def H0 : Sha256State :=
  ⟨1779033703, 3144134277, 1013904242, 2773480762,
   1359893119, 2600822924, 528734635, 1541459225⟩

/-- Big-endian 8-byte encoding of a natural number (the padded bit length). -/
def beBytes8 (n : Nat) : List Nat :=
  [(n >>> 56) % 256, (n >>> 48) % 256, (n >>> 40) % 256, (n >>> 32) % 256,
   (n >>> 24) % 256, (n >>> 16) % 256, (n >>> 8) % 256, n % 256]

/-- SHA-256 message padding: append `0x80`, zero bytes up to 56 mod 64,
then the 64-bit big-endian bit length. -/
def padMessage (msg : List Nat) : List Nat :=
  let L := msg.length
  let z := (119 - L % 64) % 64
  msg ++ [128] ++ List.replicate z 0 ++ beBytes8 (8 * L)

/-- Group bytes into big-endian 32-bit words (the tail shorter than 4 bytes
is dropped; padding guarantees a multiple of 64 bytes, hence of 4). -/
def toWords : List Nat → List Nat
  | b0 :: b1 :: b2 :: b3 :: rest =>
      u32 ((b0 <<< 24) + (b1 <<< 16) + (b2 <<< 8) + b3) :: toWords rest
  | _ => []

/-- Group 32-bit words into blocks of 16 (a shorter tail is dropped;
padding guarantees a multiple of 16 words). -/
def toBlocks : List Nat → List (List Nat)
  | w0 :: w1 :: w2 :: w3 :: w4 :: w5 :: w6 :: w7 ::
    w8 :: w9 :: w10 :: w11 :: w12 :: w13 :: w14 :: w15 :: rest =>
      [w0, w1, w2, w3, w4, w5, w6, w7, w8, w9, w10, w11, w12, w13, w14, w15]
        :: toBlocks rest
  | _ => []

/-- Extend the message schedule `n` more words; `ws` holds the schedule so
far in reverse order (most recent word first). -/
def extendW : Nat → List Nat → List Nat
  | 0, ws => ws
  | n + 1, ws =>
      extendW n
        (add32 (add32 (smallS1 (ws.getD 1 0)) (ws.getD 6 0))
               (add32 (smallS0 (ws.getD 14 0)) (ws.getD 15 0)) :: ws)

/-- The full 64-word message schedule of one 16-word block. -/
def schedule (block : List Nat) : List Nat :=
  (extendW 48 block.reverse).reverse

/-- One SHA-256 compression round; `kw` is the round constant paired with
the schedule word. -/
def roundStep (st : Sha256State) (kw : Nat × Nat) : Sha256State :=
  let t1 := add32 (add32 (add32 st.h (bigS1 st.e)) (add32 (ch st.e st.f st.g) kw.1)) kw.2
  let t2 := add32 (bigS0 st.a) (maj st.a st.b st.c)
  ⟨add32 t1 t2, st.a, st.b, st.c, add32 st.d t1, st.e, st.f, st.g⟩

/-- Compress one 16-word block into the running hash state. -/
def compress (H : Sha256State) (block : List Nat) : Sha256State :=
  let fin := (K.zip (schedule block)).foldl roundStep H
  ⟨add32 H.a fin.a, add32 H.b fin.b, add32 H.c fin.c, add32 H.d fin.d,
   add32 H.e fin.e, add32 H.f fin.f, add32 H.g fin.g, add32 H.h fin.h⟩

/-- SHA-256 of a byte list, as the final eight-word state. -/
def sha256 (msg : List Nat) : Sha256State :=
  (toBlocks (toWords (padMessage msg))).foldl compress H0

/-- The lowercase hex digit of a nibble value: codepoint 48 onward for
digits, codepoint 87 + n for `a` through `f`. -/
def hexChar (n : Nat) : Char :=
  if n < 10 then Char.ofNat (48 + n)
  else if n < 16 then Char.ofNat (87 + n)
  else '0'

/-- A 32-bit word as eight lowercase hex characters, most significant
nibble first (Python `%08x` formatting). -/
def wordHex8 (w : Nat) : List Char :=
  (List.range 8).map (fun i => hexChar ((w >>> (4 * (7 - i))) % 16))

/-- `hashlib.sha256(msg).hexdigest()`: the 64-character lowercase hex
rendering of the SHA-256 digest. -/
def sha256_hexdigest (msg : List Nat) : String :=
  let s := sha256 msg
  String.mk (wordHex8 s.a ++ wordHex8 s.b ++ wordHex8 s.c ++ wordHex8 s.d ++
             wordHex8 s.e ++ wordHex8 s.f ++ wordHex8 s.g ++ wordHex8 s.h)

/-- FIPS 180-4 test vector: SHA-256 of `"abc"`. -/
theorem sha256_vector_abc : sha256_hexdigest [97, 98, 99] =
    "ba7816bf8f01cfea414140de5dae2223b00361a396177a9cb410ff61f20015ad" := by
  decide

/-- Standard test vector: SHA-256 of the empty message. -/
theorem sha256_vector_empty : sha256_hexdigest [] =
    "e3b0c44298fc1c149afbf4c8996fb92427ae41e4649b934ca495991b7852b855" := by
  decide

/-- A signature ByteRange: two spans `(offset1, length1)` and
`(offset2, length2)` of the document's raw bytes. -/
structure ByteRange where
  offset1 : Nat
  length1 : Nat
  offset2 : Nat
  length2 : Nat
  deriving Repr, DecidableEq

/-- Python slice `l[start:stop]` for non-negative indices: indices
`start, ..., stop - 1`, silently clamped to the available elements. -/
def pySlice (l : List Nat) (start stop : Nat) : List Nat :=
  (l.take stop).drop start

/-- `compute_sha256_range` from `verify_pdf.py`: concatenates
`pdf_bytes[b[0] : b[0]+b[1]]` and `pdf_bytes[b[2] : b[2]+b[3]]` and returns
the SHA-256 hex digest of the concatenation. -/
def compute_sha256_range (pdf_bytes : List Nat) (byte_range : ByteRange) : String :=
  sha256_hexdigest
    (pySlice pdf_bytes byte_range.offset1 (byte_range.offset1 + byte_range.length1) ++
     pySlice pdf_bytes byte_range.offset2 (byte_range.offset2 + byte_range.length2))

/-- The scenario document: bytes `0x00` through `0xFF` in order. -/
def scenarioDoc : List Nat := List.range 256

/-- Whether a character is a lowercase hexadecimal digit. -/
def isLowerHexDigit (c : Char) : Bool :=
  (decide ('0' ≤ c) && decide (c ≤ '9')) || (decide ('a' ≤ c) && decide (c ≤ 'f'))

/-- Whether a character is an uppercase hexadecimal digit. -/
def isUpperHexDigit (c : Char) : Bool :=
  (decide ('0' ≤ c) && decide (c ≤ '9')) || (decide ('A' ≤ c) && decide (c ≤ 'F'))

/-- Whether a character matches Python's `[0-9A-Fa-f]` character class. -/
def isHexDigitChar (c : Char) : Bool :=
  (decide ('0' ≤ c) && decide (c ≤ '9')) || (decide ('A' ≤ c) && decide (c ≤ 'F')) ||
  (decide ('a' ≤ c) && decide (c ≤ 'f'))

/-- The uppercase hex digit of a nibble value: codepoint 48 onward for
digits, codepoint 55 + n for `A` through `F`. -/
def hexUpperChar (n : Nat) : Char :=
  if n < 10 then Char.ofNat (48 + n)
  else if n < 16 then Char.ofNat (55 + n)
  else '0'

/-- Python `bytes.hex().upper()` applied to one byte: two uppercase hex
characters, high nibble first. -/
def byteHexUpper (b : Nat) : List Char :=
  [hexUpperChar ((b >>> 4) % 16), hexUpperChar (b % 16)]

/-- Python `fp.hex().upper()`: the whole byte string as uppercase hex. -/
def bytesHexUpper (bs : List Nat) : List Char :=
  (bs.map byteHexUpper).flatten

/-- The chunks `h[i:i+2]` for `i in range(0, len(h), 2)`: consecutive
character pairs, with a trailing singleton when the length is odd. -/
def pairChunks : List Char → List (List Char)
  | a :: b :: rest => [a, b] :: pairChunks rest
  | [a] => [[a]]
  | [] => []

/-- Python `" ".join(h[i:i+2] for i in range(0, len(h), 2))`. -/
def joinPairs (cs : List Char) : String :=
  String.intercalate " " ((pairChunks cs).map String.mk)

/-- The dynamically typed argument of `format_fp`: `None`, a
`bytes`/`bytearray` value, or a string. -/
inductive FpInput where
  | none
  | bytes (bs : List Nat)
  | str (s : String)
  deriving Repr, DecidableEq

/-- `format_fp` from `verify_pdf.py`: `None` renders as `"N/A"`; a bytes
value is uppercase-hexed and space-joined in pairs; any other value is
converted to a string, and if that string contains at least one hex digit
the ORIGINAL string (`h = s`) is space-joined in pairs, otherwise the
string is returned as is. -/
def format_fp : FpInput → String
  | .none => "N/A"
  | .bytes bs => joinPairs (bytesHexUpper bs)
  | .str s =>
      let cleaned := s.data.filter isHexDigitChar
      if cleaned.isEmpty then s else joinPairs s.data

/-- The spec's rendered fingerprint form: a sequence of uppercase
hexadecimal byte pairs separated by single colons or spaces. -/
def upperHexPairsRendering : List Char → Bool
  | [a, b] => isUpperHexDigit a && isUpperHexDigit b
  | a :: b :: c :: rest =>
      isUpperHexDigit a && isUpperHexDigit b && (c = ':' || c = ' ') &&
      upperHexPairsRendering rest
  | _ => false

/-- The spec's four-way modification classification. -/
inductive ModificationLevel where
  | NONE
  | FORM_FILLING
  | ANNOTATION_OR_CONTENT_CHANGE
  | UNKNOWN
  deriving Repr, DecidableEq

/-- The fields of a pyHanko validation status object that `main` reads. -/
structure SigStatus where
  trusted : Option Bool
  valid : Option Bool
  modification_level : Option ModificationLevel
  deriving Repr, DecidableEq

/-- One embedded signature as `main` consumes it: an optional
`/ByteRange` and the optional validation status (`None` when
`try_validation` failed). -/
structure EmbeddedSig where
  byteRange : Option ByteRange
  status : Option SigStatus
  deriving Repr, DecidableEq

/-- Python truthiness of an `Option Bool` (`None` and `False` are falsy). -/
def truthy : Option Bool → Bool
  | some true => true
  | _ => false

/-- Log message of `verify_pdf.py` line 136: no signature detected. -/
def msgNoSignature : String := "Không phát hiện chữ ký nào trong tài liệu."

/-- Log message for a fully trusted chain (line 197). -/
def msgChainTrusted : String :=
  "- Chuỗi chứng thư: ✅ Được tin cậy hoàn toàn (đã xác minh CA)."

/-- Log message for a valid signature with unconfirmed CA (line 199). -/
def msgChainValidNoCA : String :=
  "- Chuỗi chứng thư: ⚠️ Chữ ký hợp lệ nhưng chưa xác định CA gốc."

/-- Log message for an invalid or unverifiable chain (line 201). -/
def msgChainInvalid : String :=
  "Chuỗi chứng thư: ❌ Không hợp lệ hoặc thiếu chứng thư xác minh."

/-- Log message for no modification after signing (line 225). -/
def msgModNone : String :=
  "- Kiểm tra chỉnh sửa: ✅ Không có thay đổi nào sau khi ký."

/-- Log message for form filling after signing (line 227). -/
def msgModFormFilling : String :=
  "Kiểm tra chỉnh sửa: ⚠️ Có điền form sau khi ký."

/-- Log message merging content change and undetermined level (line 229). -/
def msgModChangedOrUnknown : String :=
  "- Kiểm tra chỉnh sửa: ❌ File có thay đổi sau khi ký hoặc không xác định rõ."

/-- Final verdict for a valid signature (line 234). -/
def msgVerdictValid : String := "Kết quả: CHỮ KÝ HỢP LỆ — FILE VẪN NGUYÊN VẸN."

/-- Final verdict otherwise (line 236). -/
def msgVerdictInvalid : String :=
  "Kết quả: CHỮ KÝ KHÔNG HỢP LỆ HOẶC FILE ĐÃ BỊ CAN THIỆP."

/-- The chain-trust branch of `main` (lines 194-201): `trusted is True`
first, then Python truthiness of `valid`, else the failure message. -/
def chainLine (trusted valid : Option Bool) : String :=
  if trusted = some true then msgChainTrusted
  else if truthy valid then msgChainValidNoCA
  else msgChainInvalid

/-- The modification-level branch of `main` (lines 222-229): `NONE` and
`FORM_FILLING` get their own messages; every other value, including an
unreadable level, falls into one shared else-branch message. -/
def modLine (lvl : Option ModificationLevel) : String :=
  if lvl = some ModificationLevel.NONE then msgModNone
  else if lvl = some ModificationLevel.FORM_FILLING then msgModFormFilling
  else msgModChangedOrUnknown

/-- The final verdict branch of `main` (lines 232-236), keyed on `valid`
truthiness only. -/
def verdictLine (valid : Option Bool) : String :=
  if truthy valid then msgVerdictValid else msgVerdictInvalid

/-- Outcome of one run of `main` over an opened document. -/
inductive VerifyOutcome where
  | noSignatures (msg : String)
  | statusUndetermined (hashVal : Option String)
  | report (hashVal : Option String) (chainMsg modMsg verdict : String)
  deriving Repr, DecidableEq

/-- Processing of the selected signature in `main` (lines 139-236): the
hash is recomputed from the ByteRange when present (lines 151-158) before
validation; when validation yields no status, `main` logs an error and
returns (lines 165-167); otherwise one report block is logged. -/
def processSig (pdf : List Nat) (sig : EmbeddedSig) : VerifyOutcome :=
  let hashVal := sig.byteRange.map (compute_sha256_range pdf)
  match sig.status with
  | Option.none => VerifyOutcome.statusUndetermined hashVal
  | some st =>
      VerifyOutcome.report hashVal (chainLine st.trusted st.valid)
        (modLine st.modification_level) (verdictLine st.valid)

/-- The signature-handling core of `main` (lines 134-236): materialize the
embedded signature list; with no signatures log the no-signature message
and return; otherwise take `signatures[0]` and process only it. -/
def mainVerify (pdf : List Nat) (sigs : List EmbeddedSig) : VerifyOutcome :=
  match sigs with
  | [] => VerifyOutcome.noSignatures msgNoSignature
  | s :: _ => processSig pdf s

/-- Number of per-signature report blocks an outcome carries. -/
def reportCount : VerifyOutcome → Nat
  | VerifyOutcome.report _ _ _ _ => 1
  | _ => 0

/-- The spec's error for an ill-formed ByteRange. -/
inductive MalformedRangeError where
  | malformedRange
  deriving Repr, DecidableEq

/-- Whether some span of the range reaches past the end of a document of
length `docLen`. -/
def rangeOutOfBounds (docLen : Nat) (r : ByteRange) : Bool :=
  decide (docLen < r.offset1 + r.length1) || decide (docLen < r.offset2 + r.length2)

/-- Whether the two half-open spans of the range intersect. -/
def rangesOverlap (r : ByteRange) : Bool :=
  decide (max r.offset1 r.offset2 <
    min (r.offset1 + r.length1) (r.offset2 + r.length2))

/-- Modelled from the spec: section 4.1 ByteRangeDigest, the digest
contract `digest(documentBytes, range)` that fails with
`MalformedRangeError` when any offset/length is out of bounds or the spans
overlap, and otherwise hashes the concatenation of the two spans. This
checking behaviour exists only in the spec; `compute_sha256_range` in
`verify_pdf.py` performs no such checks. -/
def digest_spec (doc : List Nat) (r : ByteRange) :
    Except MalformedRangeError String :=
  if rangeOutOfBounds doc.length r || rangesOverlap r then
    Except.error MalformedRangeError.malformedRange
  else
    Except.ok (sha256_hexdigest
      (pySlice doc r.offset1 (r.offset1 + r.length1) ++
       pySlice doc r.offset2 (r.offset2 + r.length2)))

/-- What an incremental update touches, once parsed. -/
structure UpdateInfo where
  onlyFormFieldValues : Bool
  deriving Repr, DecidableEq

/-- Modelled from the spec: section 4.5 ModificationAnalyzer's
`classify(document, signature)`. The analyzer itself lives in the pyHanko
dependency, not in the repository source; per the spec it compares the
signed-time length `offset2 + length2` with the current document length,
then inspects the parsed incremental update (`none` when the update
structure cannot be parsed). -/
def classify (docLen : Nat) (r : ByteRange) (update : Option UpdateInfo) :
    ModificationLevel :=
  if docLen ≤ r.offset2 + r.length2 then ModificationLevel.NONE
  else
    match update with
    | Option.none => ModificationLevel.UNKNOWN
    | some u =>
        if u.onlyFormFieldValues then ModificationLevel.FORM_FILLING
        else ModificationLevel.ANNOTATION_OR_CONTENT_CHANGE

/-- Overwrite the bytes of `base` starting at `off` with `payload`,
shifting nothing: the in-place injection of the signature container over
its reserved placeholder region. -/
def injectAt (base : List Nat) (off : Nat) (payload : List Nat) : List Nat :=
  base.take off ++ payload ++ base.drop (off + payload.length)

/-- The inputs of one incremental signing operation. -/
structure SignMaterial where
  fieldBytes : List Nat
  placeholderLen : Nat
  trailerBytes : List Nat
  sigContainer : List Nat
  deriving Repr, DecidableEq

/-- Modelled from the spec: sections 4.3 IncrementalWriter and 4.6
SignatureEngine.sign. `sign.py` delegates the byte-level work to pyHanko
(`IncrementalPdfFileWriter`, `PdfSigner.sign_pdf`), which is not
repository source. Per the spec, signing appends the new field objects, a
fixed-size zeroed placeholder for the signature container, and the
updated trailer after the existing bytes, then injects the encoded
container over the placeholder region in place; an encoded container
larger than the placeholder is a fatal `PlaceholderTooSmallError`,
modelled as `none`. -/
def sign_pdf (doc : List Nat) (m : SignMaterial) : Option (List Nat) :=
  if m.sigContainer.length ≤ m.placeholderLen then
    some (injectAt
      (doc ++ m.fieldBytes ++ List.replicate m.placeholderLen 0 ++ m.trailerBytes)
      (doc.length + m.fieldBytes.length)
      (m.sigContainer ++ List.replicate (m.placeholderLen - m.sigContainer.length) 0))
  else Option.none

/-! Supporting lemmas. -/

theorem pySlice_drop_take (l : List Nat) (o n : Nat) :
    pySlice l o (o + n) = (l.drop o).take n := by
  unfold pySlice
  rw [List.drop_take]
  congr 1
  omega

theorem hexChar_isLowerHex (n : Nat) : isLowerHexDigit (hexChar n) = true := by
  unfold hexChar
  rcases Nat.lt_or_ge n 16 with h | h
  · interval_cases n <;> decide
  · rw [if_neg (by omega), if_neg (by omega)]
    decide

theorem wordHex8_length (w : Nat) : (wordHex8 w).length = 8 := by
  simp [wordHex8]

theorem wordHex8_all (w : Nat) : (wordHex8 w).all isLowerHexDigit = true := by
  rw [List.all_eq_true]
  intro c hc
  simp only [wordHex8, List.mem_map] at hc
  obtain ⟨i, _, rfl⟩ := hc
  exact hexChar_isLowerHex _

theorem sha256_hexdigest_length (msg : List Nat) :
    (sha256_hexdigest msg).length = 64 := by
  unfold sha256_hexdigest
  simp [String.length, wordHex8_length]

theorem sha256_hexdigest_all_lower (msg : List Nat) :
    (sha256_hexdigest msg).data.all isLowerHexDigit = true := by
  unfold sha256_hexdigest
  simp [List.all_append, wordHex8_all]

theorem reportCount_le_one (o : VerifyOutcome) : reportCount o ≤ 1 := by
  cases o <;> simp [reportCount]

theorem injectAt_take (doc rest payload : List Nat) (k : Nat) :
    (injectAt (doc ++ rest) (doc.length + k) payload).take doc.length = doc := by
  unfold injectAt
  have h1 : doc.length ≤ (((doc ++ rest)).take (doc.length + k)).length := by
    simp only [List.length_take, List.length_append]
    omega
  rw [List.append_assoc, List.take_append_of_le_length h1, List.take_take]
  have h2 : min doc.length (doc.length + k) = doc.length := by omega
  rw [h2]
  exact List.take_left doc rest

/-! Claim theorems. -/

/-- C1: for every document and every ByteRange whose spans lie within the
document, `compute_sha256_range` returns exactly the SHA-256 hex digest of
the concatenation of `documentBytes[offset1 : offset1+length1]` and
`documentBytes[offset2 : offset2+length2]`; in particular, for ByteRange
`(0, 100, 200, 50)` on the scenario document it equals the precomputed
SHA-256 of the concatenation of those two slices. -/
theorem C1_digest_correct :
    (∀ (doc : List Nat) (r : ByteRange),
        r.offset1 + r.length1 ≤ doc.length →
        r.offset2 + r.length2 ≤ doc.length →
        compute_sha256_range doc r =
          sha256_hexdigest ((doc.drop r.offset1).take r.length1 ++
                            (doc.drop r.offset2).take r.length2)) ∧
    compute_sha256_range scenarioDoc ⟨0, 100, 200, 50⟩ =
      "81603a91394ff37fe020a7803d1cdb6664e7348291c14e0b23508a5922f9270c" := by
  constructor
  · intro doc r _ _
    unfold compute_sha256_range
    rw [pySlice_drop_take, pySlice_drop_take]
  · decide

/-- Witness for C1 at the scenario document and ByteRange `(0,100,200,50)`. -/
theorem C1_witness :
    (⟨0, 100, 200, 50⟩ : ByteRange).offset1 + (⟨0, 100, 200, 50⟩ : ByteRange).length1 ≤
      scenarioDoc.length ∧
    (⟨0, 100, 200, 50⟩ : ByteRange).offset2 + (⟨0, 100, 200, 50⟩ : ByteRange).length2 ≤
      scenarioDoc.length ∧
    compute_sha256_range scenarioDoc ⟨0, 100, 200, 50⟩ =
      sha256_hexdigest ((scenarioDoc.drop 0).take 100 ++ (scenarioDoc.drop 200).take 50) :=
  ⟨by decide, by decide,
   C1_digest_correct.1 scenarioDoc ⟨0, 100, 200, 50⟩ (by decide) (by decide)⟩

/-- C2 counterexample: with two embedded signatures, `main` produces a
single report block, not one per signature — `sig = signatures[0]` is the
only signature processed. -/
theorem C2_counterexample :
    reportCount (mainVerify []
      [⟨Option.none, some ⟨some true, some true, some ModificationLevel.NONE⟩⟩,
       ⟨Option.none, some ⟨some true, some true, some ModificationLevel.NONE⟩⟩]) = 1 ∧
    ([⟨Option.none, some ⟨some true, some true, some ModificationLevel.NONE⟩⟩,
      ⟨Option.none, some ⟨some true, some true, some ModificationLevel.NONE⟩⟩] :
        List EmbeddedSig).length = 2 ∧
    (1 : Nat) ≠ 2 := by
  refine ⟨rfl, rfl, by decide⟩

/-- C2 amended: verification processes only the first embedded signature;
the outcome is entirely determined by `signatures[0]` (later signatures
are never examined), and at most one report block is produced regardless
of how many signatures the document contains. -/
theorem C2_amended_first_only (pdf : List Nat) (s : EmbeddedSig)
    (rest : List EmbeddedSig) :
    mainVerify pdf (s :: rest) = mainVerify pdf [s] ∧
    reportCount (mainVerify pdf (s :: rest)) ≤ 1 :=
  ⟨rfl, reportCount_le_one _⟩

/-- C3: for every successful run of `sign_pdf`, the first N bytes of the
output (N = input length) are byte-identical to the input document:
signing is strictly append-only over the committed bytes, with the
signature container injected only over its reserved placeholder region. -/
theorem C3_append_only :
    ∀ (doc : List Nat) (m : SignMaterial) (out : List Nat),
      sign_pdf doc m = some out → out.take doc.length = doc := by
  intro doc m out h
  unfold sign_pdf at h
  split at h
  · injection h with h
    subst h
    simpa [List.append_assoc] using
      injectAt_take doc
        (m.fieldBytes ++ (List.replicate m.placeholderLen 0 ++ m.trailerBytes))
        (m.sigContainer ++ List.replicate (m.placeholderLen - m.sigContainer.length) 0)
        m.fieldBytes.length
  · exact Option.noConfusion h

/-- Witness for C3 on a concrete three-byte document. -/
theorem C3_witness :
    sign_pdf [1, 2, 3] ⟨[9], 2, [7], [5]⟩ = some [1, 2, 3, 9, 5, 0, 7] ∧
    ([1, 2, 3, 9, 5, 0, 7] : List Nat).take ([1, 2, 3] : List Nat).length = [1, 2, 3] :=
  ⟨by decide,
   C3_append_only [1, 2, 3] ⟨[9], 2, [7], [5]⟩ [1, 2, 3, 9, 5, 0, 7] (by decide)⟩

/-- C4 counterexample: on a 10-byte document with the out-of-bounds
ByteRange `(0, 100, 200, 50)` — where the spec digest contract reports
`MalformedRangeError` — `compute_sha256_range` does not fail: it returns
the SHA-256 digest of the clamped slices. -/
theorem C4_counterexample :
    rangeOutOfBounds (List.range 10).length ⟨0, 100, 200, 50⟩ = true ∧
    digest_spec (List.range 10) ⟨0, 100, 200, 50⟩ =
      Except.error MalformedRangeError.malformedRange ∧
    compute_sha256_range (List.range 10) ⟨0, 100, 200, 50⟩ =
      "1f825aa2f0020ef7cf91dfa30da4668d791c5d4824fc8e41354b89ec05795ab3" := by
  refine ⟨by decide, rfl, by decide⟩

/-- C4 amended: on every malformed ByteRange (out of bounds or
overlapping spans) the spec contract `digest_spec` fails with
`MalformedRangeError`, but `compute_sha256_range` performs no validation:
it silently clamps each slice to the available bytes and returns the
SHA-256 hex digest of the clamped concatenation. -/
theorem C4_amended_no_failure :
    ∀ (doc : List Nat) (r : ByteRange),
      (rangeOutOfBounds doc.length r || rangesOverlap r) = true →
      digest_spec doc r = Except.error MalformedRangeError.malformedRange ∧
      compute_sha256_range doc r =
        sha256_hexdigest (pySlice doc r.offset1 (r.offset1 + r.length1) ++
                          pySlice doc r.offset2 (r.offset2 + r.length2)) := by
  intro doc r h
  constructor
  · unfold digest_spec
    rw [h]
    rfl
  · rfl

/-- Witness for C4 at the 10-byte document and range `(0,100,200,50)`. -/
theorem C4_witness :
    (rangeOutOfBounds (List.range 10).length ⟨0, 100, 200, 50⟩ ||
      rangesOverlap ⟨0, 100, 200, 50⟩) = true ∧
    digest_spec (List.range 10) ⟨0, 100, 200, 50⟩ =
      Except.error MalformedRangeError.malformedRange :=
  ⟨by decide,
   (C4_amended_no_failure (List.range 10) ⟨0, 100, 200, 50⟩ (by decide)).1⟩

/-- C5 counterexample: the report branch of `main` does not render the
four modification levels as four distinct outcomes —
`ANNOTATION_OR_CONTENT_CHANGE` and `UNKNOWN` produce the identical
message. -/
theorem C5_counterexample :
    modLine (some ModificationLevel.ANNOTATION_OR_CONTENT_CHANGE) =
      modLine (some ModificationLevel.UNKNOWN) := rfl

/-- C5 amended: the (spec-modelled) classification follows the stated
priority order — no appended bytes gives `NONE`; appended but unparsable
gives `UNKNOWN`; parsed updates give `FORM_FILLING` exactly when only
form-field values are touched, tested before the generic content-change
case — but the report renders only three distinct outcomes: `NONE` and
`FORM_FILLING` each have their own message, while
`ANNOTATION_OR_CONTENT_CHANGE` and `UNKNOWN` share the else-branch
message. -/
theorem C5_amended_classification :
    (∀ (docLen : Nat) (r : ByteRange) (u : Option UpdateInfo),
        docLen ≤ r.offset2 + r.length2 →
        classify docLen r u = ModificationLevel.NONE) ∧
    (∀ (docLen : Nat) (r : ByteRange),
        r.offset2 + r.length2 < docLen →
        classify docLen r Option.none = ModificationLevel.UNKNOWN) ∧
    (∀ (docLen : Nat) (r : ByteRange) (u : UpdateInfo),
        r.offset2 + r.length2 < docLen →
        classify docLen r (some u) =
          (if u.onlyFormFieldValues then ModificationLevel.FORM_FILLING
           else ModificationLevel.ANNOTATION_OR_CONTENT_CHANGE)) ∧
    modLine (some ModificationLevel.NONE) ≠
      modLine (some ModificationLevel.FORM_FILLING) ∧
    modLine (some ModificationLevel.NONE) ≠ msgModChangedOrUnknown ∧
    modLine (some ModificationLevel.FORM_FILLING) ≠ msgModChangedOrUnknown ∧
    modLine (some ModificationLevel.ANNOTATION_OR_CONTENT_CHANGE) =
      modLine (some ModificationLevel.UNKNOWN) := by
  refine ⟨?_, ?_, ?_, by decide, by decide, by decide, rfl⟩
  · intro docLen r u h
    unfold classify
    rw [if_pos h]
  · intro docLen r h
    unfold classify
    rw [if_neg (by omega)]
  · intro docLen r u h
    unfold classify
    rw [if_neg (by omega)]

/-- Witness for C5 instantiating the three classification branches. -/
theorem C5_witness :
    classify 0 ⟨0, 0, 0, 0⟩ Option.none = ModificationLevel.NONE ∧
    classify 5 ⟨0, 1, 2, 2⟩ Option.none = ModificationLevel.UNKNOWN ∧
    classify 5 ⟨0, 1, 2, 2⟩ (some ⟨true⟩) = ModificationLevel.FORM_FILLING := by
  refine ⟨C5_amended_classification.1 0 ⟨0, 0, 0, 0⟩ Option.none (by decide),
          C5_amended_classification.2.1 5 ⟨0, 1, 2, 2⟩ (by decide), ?_⟩
  have h := C5_amended_classification.2.2.1 5 ⟨0, 1, 2, 2⟩ ⟨true⟩ (by decide)
  simpa using h

/-- C6: for a signature whose status is cryptographically valid but whose
chain is not trusted, the report block carries the valid-but-CA-unknown
chain message — distinct from both the trusted and the invalid messages —
while the recomputed digest is reported unchanged (the hash component
does not depend on the trust flag at all): trust and cryptographic
validity are independently reportable. -/
theorem C6_trust_independent :
    ∀ (pdf : List Nat) (br : ByteRange) (trusted : Option Bool)
      (lvl : Option ModificationLevel),
      trusted ≠ some true →
      processSig pdf ⟨some br, some ⟨trusted, some true, lvl⟩⟩ =
        VerifyOutcome.report (some (compute_sha256_range pdf br))
          msgChainValidNoCA (modLine lvl) msgVerdictValid ∧
      msgChainValidNoCA ≠ msgChainTrusted ∧
      msgChainValidNoCA ≠ msgChainInvalid := by
  intro pdf br trusted lvl h
  refine ⟨?_, by decide, by decide⟩
  have hc : chainLine trusted (some true) = msgChainValidNoCA := by
    unfold chainLine
    rw [if_neg h]
    rfl
  simp [processSig, verdictLine, truthy, hc]

/-- Witness for C6 with an untrusted but valid status on the empty
document. -/
theorem C6_witness :
    (some false ≠ (some true : Option Bool)) ∧
    processSig [] ⟨some ⟨0, 0, 0, 0⟩, some ⟨some false, some true, Option.none⟩⟩ =
      VerifyOutcome.report (some (compute_sha256_range [] ⟨0, 0, 0, 0⟩))
        msgChainValidNoCA (modLine Option.none) msgVerdictValid :=
  ⟨by decide,
   (C6_trust_independent [] ⟨0, 0, 0, 0⟩ (some false) Option.none (by decide)).1⟩

/-- C7: `format_fp` renders a bytes fingerprint as space-separated
uppercase hex pairs, but on a string fingerprint line 46 (`h = s`)
discards the cleaned uppercase hex and chunks the original string, so the
lowercase input `"ab"` is returned as `"ab"`, which is not a colon- or
space-separated uppercase hex pair rendering. -/
theorem C7_format_fp_bug :
    format_fp (FpInput.str "ab") = "ab" ∧
    upperHexPairsRendering ("ab".data) = false ∧
    format_fp (FpInput.bytes [171]) = "AB" ∧
    upperHexPairsRendering ("AB".data) = true := by
  refine ⟨by decide, by decide, by decide, by decide⟩

/-- C8: for a document with zero embedded signatures, `main` logs the
no-signature message and returns normally; the outcome is the dedicated
`noSignatures` constructor, not an error. -/
theorem C8_no_signature_is_normal :
    ∀ (pdf : List Nat),
      mainVerify pdf [] = VerifyOutcome.noSignatures msgNoSignature := by
  intro pdf
  rfl

/-- C9: on every valid ByteRange (in bounds, non-overlapping),
`compute_sha256_range` is deterministic — two runs on equal inputs yield
the same output value. -/
theorem C9_digest_deterministic :
    ∀ (pdf1 pdf2 : List Nat) (r1 r2 : ByteRange),
      rangeOutOfBounds pdf1.length r1 = false →
      rangesOverlap r1 = false →
      pdf1 = pdf2 → r1 = r2 →
      compute_sha256_range pdf1 r1 = compute_sha256_range pdf2 r2 := by
  intro pdf1 pdf2 r1 r2 _ _ hp hr
  subst hp
  subst hr
  rfl

/-- Witness for C9 at the scenario document and a valid range. -/
theorem C9_witness :
    rangeOutOfBounds scenarioDoc.length ⟨0, 100, 200, 50⟩ = false ∧
    rangesOverlap ⟨0, 100, 200, 50⟩ = false ∧
    compute_sha256_range scenarioDoc ⟨0, 100, 200, 50⟩ =
      compute_sha256_range scenarioDoc ⟨0, 100, 200, 50⟩ :=
  ⟨by decide, by decide,
   C9_digest_deterministic scenarioDoc scenarioDoc ⟨0, 100, 200, 50⟩
     ⟨0, 100, 200, 50⟩ (by decide) (by decide) rfl rfl⟩

/-- C10: `compute_sha256_range` is total over every document and every
four-integer ByteRange — out-of-range slices silently clamp to the
available bytes — and its result is always a 64-character string of
lowercase hexadecimal digits. -/
theorem C10_total_and_hex :
    ∀ (pdf : List Nat) (r : ByteRange),
      (compute_sha256_range pdf r).length = 64 ∧
      (compute_sha256_range pdf r).data.all isLowerHexDigit = true ∧
      (∀ (o e : Nat), pdf.length ≤ e → pySlice pdf o e = pdf.drop o) := by
  intro pdf r
  refine ⟨sha256_hexdigest_length _, sha256_hexdigest_all_lower _, ?_⟩
  intro o e h
  unfold pySlice
  rw [List.take_of_length_le h]

/-- Witness for C10 on a three-byte document, also instantiating the
clamping clause at a far-out-of-range stop index. -/
theorem C10_witness :
    (compute_sha256_range [1, 2, 3] ⟨0, 100, 200, 50⟩).length = 64 ∧
    pySlice [1, 2, 3] 1 100 = ([1, 2, 3] : List Nat).drop 1 :=
  ⟨(C10_total_and_hex [1, 2, 3] ⟨0, 100, 200, 50⟩).1,
   (C10_total_and_hex [1, 2, 3] ⟨0, 100, 200, 50⟩).2.2 1 100 (by decide)⟩

end PdfSig
